import Mathlib

/-!
# vanetza security: CertificateManager

Shallow embedding of `src/vanetza/security/certificate_manager.cpp`
(`sign_message`, `verify_message`, `generate_certificate`,
`get_public_key_from_certificate`, `sign_data`, `get_time`,
`get_time_in_seconds`) and theorems about it.

Conventions of the embedding.

* A C++ call either returns a value or ends abnormally: a failed `assert`
  (the assertions are compiled in), an uncaught `boost::bad_get`, or an uncaught
  `std::out_of_range`.  Such a call is an `Except Abort α`.
* `CryptoPP::AutoSeededRandomPool` is a fresh source of randomness for each
  call; the draw is an explicit `Seed` argument.
* The Crypto++ ECDSA primitives (library code) are the fields of `Backend`.
* The wire codec of the repository (`convert_for_signing`, `get_size`,
  `extract_signature_buffer`; declared in headers that are not part of the
  sources at hand) are the fields of `Codec`.
* `m_time_now.raw()` is the argument `m_time_now : Nat`; conversions to
  `Time32` and `Time64` are explicit reductions modulo `2^32` and `2^64`.
-/

namespace Vanetza

/-! ## Data model -/

/-- One octet (`uint8_t`). -/
abbrev Byte := Fin 256

/-- The type `ByteBuffer` is `std::vector<uint8_t>`. -/
abbrev ByteBuffer := List Byte

/-- One draw of a `CryptoPP::AutoSeededRandomPool`. -/
abbrev Seed := Nat

/-- Abnormal ends of a call, named after the statement that causes them. -/
inductive Abort where
  /-- Line 24: `assert(m_private_key.Validate(prng, 3))`. -/
  | private_key_invalid
  /-- Line 29: `assert(public_key.Validate(prng, 3))`. -/
  | made_public_key_invalid
  /-- Lines 158, 159: `assert(CryptoPP::SHA256::DIGESTSIZE == coordinates.x.size())`
  and the same for y. -/
  | coordinate_size_mismatch
  /-- Line 71: `assert(get_size(trailer_field) == trailer_field_size)`. -/
  | trailer_field_size_mismatch
  /-- Line 83: `assert(SignerInfoType::Certificate == get_type(...))`. -/
  | signer_info_not_certificate
  /-- Line 89: `assert(certificate.is_initialized())`. -/
  | certificate_missing
  /-- Line 101: `assert(!trailer_fields.empty())`. -/
  | trailer_fields_empty
  /-- Line 202: `assert(public_key_coordinates.is_initialized())`. -/
  | public_key_coordinates_missing
  /-- Line 222: `assert(len == CryptoPP::SHA256::DIGESTSIZE)` for x. -/
  | x_length_mismatch
  /-- Line 224: `assert(len == CryptoPP::SHA256::DIGESTSIZE)` for y. -/
  | y_length_mismatch
  /-- Line 234: `assert(public_key.Validate(prng, 3))`. -/
  | recovered_public_key_invalid
  /-- Line 197: `boost::get` on a variant that holds another alternative. -/
  | bad_get
  /-- Line 255: `signature.substr(32)` on a string shorter than 32. -/
  | out_of_range
  deriving DecidableEq, Repr

/-- The struct `X_Coordinate_Only` (lines 52, 259). -/
structure X_Coordinate_Only where
  x : ByteBuffer
  deriving DecidableEq, Repr

/-- The struct `Uncompressed` (line 151). -/
structure Uncompressed where
  x : ByteBuffer
  y : ByteBuffer
  deriving DecidableEq, Repr

/-- The variant `EccPoint`, with the alternatives the source constructs. -/
inductive EccPoint where
  | x_coordinate_only (p : X_Coordinate_Only)
  | uncompressed (p : Uncompressed)
  deriving DecidableEq, Repr

/-- The struct `EcdsaSignature` (lines 50, 257). -/
structure EcdsaSignature where
  R : EccPoint
  s : ByteBuffer
  deriving DecidableEq, Repr

/-- A default-constructed `EcdsaSignature`: first alternative, empty buffers. -/
def EcdsaSignature.default : EcdsaSignature :=
  { R := EccPoint.x_coordinate_only { x := [] }, s := [] }

/-- The enum `TrailerFieldType`; the source names `Signature`. -/
inductive TrailerFieldType where
  | Signature
  deriving DecidableEq, Repr

/-- The variant `TrailerField`; the source stores an `EcdsaSignature` in it. -/
inductive TrailerField where
  | signature (sig : EcdsaSignature)
  deriving DecidableEq, Repr

/-- The enum `PayloadType` of TS 103 097; the source sets `Signed`. -/
inductive PayloadType where
  | Unsecured
  | Signed
  | Encrypted
  | Signed_External
  | Signed_And_Encrypted
  deriving DecidableEq, Repr

/-- The struct `Payload`: a type tag and a byte buffer (lines 38, 39). -/
structure Payload where
  type : PayloadType
  buffer : ByteBuffer
  deriving DecidableEq, Repr

/-- The struct `ecdsa_nistp256_with_sha256` (line 162). -/
structure ecdsa_nistp256_with_sha256 where
  public_key : EccPoint
  deriving DecidableEq, Repr

/-- The variant `PublicKey` of the wire format (line 165). -/
inductive PublicKey where
  | ecdsa_nistp256_with_sha256 (k : ecdsa_nistp256_with_sha256)
  deriving DecidableEq, Repr

/-- The struct `VerificationKey` (line 164). -/
structure VerificationKey where
  key : PublicKey
  deriving DecidableEq, Repr

/-- The struct `SubjectAssurance`; `SubjectAssurance()` is the zero octet. -/
structure SubjectAssurance where
  raw : Byte
  deriving DecidableEq, Repr

/-- The enum `SubjectAttributeType`. -/
inductive SubjectAttributeType where
  | Verification_Key
  | Assurance_Level
  deriving DecidableEq, Repr

/-- The variant `SubjectAttribute` (lines 166, 169). -/
inductive SubjectAttribute where
  | verification_key (k : VerificationKey)
  | assurance_level (a : SubjectAssurance)
  deriving DecidableEq, Repr

/-- The enum `SubjectType`; the source sets `Authorization_Ticket`. -/
inductive SubjectType where
  | Authorization_Ticket
  deriving DecidableEq, Repr

/-- The struct `SubjectInfo`: subject type and (here empty) subject name. -/
structure SubjectInfo where
  subject_type : SubjectType
  subject_name : ByteBuffer
  deriving DecidableEq, Repr

/-- The struct `StartAndEndValidity`; both fields are `Time32`. -/
structure StartAndEndValidity where
  start_validity : Nat
  end_validity : Nat
  deriving DecidableEq, Repr

/-- The variant `ValidityRestriction` (line 176). -/
inductive ValidityRestriction where
  | time_start_and_end (v : StartAndEndValidity)
  deriving DecidableEq, Repr

mutual
/-- The variant `SignerInfo`: `std::nullptr_t` (self signed, line 142), a
certificate digest (lines 43, 141) or a full certificate (line 44). -/
inductive SignerInfo where
  | self
  | certificate_digest_with_ecdsa_p256 (digest : ByteBuffer)
  | certificate (cert : Certificate)
/-- The struct `Certificate` (lines 138 to 186). -/
inductive Certificate where
  | mk (signer_info : SignerInfo) (subject_info : SubjectInfo)
      (subject_attributes : List SubjectAttribute)
      (validity_restriction : List ValidityRestriction)
      (signature : EcdsaSignature)
end

/-- Field `signer_info` of a certificate. -/
def Certificate.signer_info : Certificate → SignerInfo
  | .mk si _ _ _ _ => si

/-- Field `subject_info` of a certificate. -/
def Certificate.subject_info : Certificate → SubjectInfo
  | .mk _ su _ _ _ => su

/-- Field `subject_attributes` of a certificate. -/
def Certificate.subject_attributes : Certificate → List SubjectAttribute
  | .mk _ _ sa _ _ => sa

/-- Field `validity_restriction` of a certificate. -/
def Certificate.validity_restriction : Certificate → List ValidityRestriction
  | .mk _ _ _ vr _ => vr

/-- Field `signature` of a certificate. -/
def Certificate.signature : Certificate → EcdsaSignature
  | .mk _ _ _ _ sg => sg

/-- The enum `SignerInfoType`. -/
inductive SignerInfoType where
  | Self
  | Certificate_Digest_With_ECDSA_P256
  | Certificate
  deriving DecidableEq, Repr

/-- The enum `HeaderFieldType`. -/
inductive HeaderFieldType where
  | Generation_Time
  | Its_Aid
  | Signer_Info
  deriving DecidableEq, Repr

/-- The variant `HeaderField`: a `Time64` generation time (line 41), a
`uint16_t` application identifier (line 42) or a `SignerInfo` (line 45). -/
inductive HeaderField where
  | generation_time (t : Nat)
  | its_aid (aid : Nat)
  | signer_info (info : SignerInfo)

/-- The struct `SecuredMessage`. -/
structure SecuredMessage where
  header_fields : List HeaderField
  payload : Payload
  trailer_fields : List TrailerField

/-- A default-constructed `SecuredMessage` (line 36); lines 38 and 39 overwrite
the payload before it is read. -/
def SecuredMessage.default : SecuredMessage :=
  { header_fields := [], payload := { type := PayloadType.Unsecured, buffer := [] },
    trailer_fields := [] }

/-- The struct `EncapRequest`. -/
structure EncapRequest where
  plaintext_payload : ByteBuffer
  plaintext_pdu : ByteBuffer

/-- The struct `EncapConfirm`. -/
structure EncapConfirm where
  sec_packet : SecuredMessage

/-- The struct `DecapRequest`. -/
structure DecapRequest where
  sec_packet : SecuredMessage
  sec_pdu : ByteBuffer

/-- The enum `ReportType`, with the two values `verify_message` assigns. -/
inductive ReportType where
  | Success
  | False_Signature
  deriving DecidableEq, Repr

/-- The struct `DecapConfirm`. -/
structure DecapConfirm where
  plaintext_payload : ByteBuffer
  report : ReportType
  deriving DecidableEq, Repr

/-- `get_type` of a header field. -/
def HeaderField.get_type : HeaderField → HeaderFieldType
  | .generation_time _ => HeaderFieldType.Generation_Time
  | .its_aid _ => HeaderFieldType.Its_Aid
  | .signer_info _ => HeaderFieldType.Signer_Info

/-- `get_type` of a signer info. -/
def SignerInfo.get_type : SignerInfo → SignerInfoType
  | .self => SignerInfoType.Self
  | .certificate_digest_with_ecdsa_p256 _ => SignerInfoType.Certificate_Digest_With_ECDSA_P256
  | .certificate _ => SignerInfoType.Certificate

/-- `get_type` of a subject attribute. -/
def SubjectAttribute.get_type : SubjectAttribute → SubjectAttributeType
  | .verification_key _ => SubjectAttributeType.Verification_Key
  | .assurance_level _ => SubjectAttributeType.Assurance_Level

/-- `get_type` of a trailer field. -/
def TrailerField.get_type : TrailerField → TrailerFieldType
  | .signature _ => TrailerFieldType.Signature

/-! ## Crypto++ and codec capabilities -/

/-- A `CryptoPP::ECP::Point`: identity flag and affine coordinates. -/
structure ECPPoint where
  identity : Bool
  x : Nat
  y : Nat
  deriving DecidableEq, Repr

/-- A Crypto++ ECDSA private key, by its private exponent. -/
abbrev PrivateKey := Nat

/-- The Crypto++ operations the manager calls (secp256r1 with SHA-256).
`sign` is the raw output of the `SignerFilter`; `verify` is the result of the
`SignatureVerificationFilter` fed with signature followed by message. -/
structure Backend where
  generate_private_key : Seed → PrivateKey
  validate_private_key : PrivateKey → Bool
  make_public_key : PrivateKey → ECPPoint
  validate_public_key : ECPPoint → Bool
  sign : PrivateKey → ByteBuffer → Seed → ByteBuffer
  verify : ECPPoint → ByteBuffer → Bool

/-- The serialization functions the manager calls. -/
structure Codec where
  convert_for_signing : SecuredMessage → TrailerFieldType → Nat → ByteBuffer
  convert_for_signing_certificate : Certificate → ByteBuffer
  get_size : TrailerField → Nat
  extract_signature_buffer : TrailerField → ByteBuffer

/-- The enum `PublicKeyAlgorithm`; the source names one value. -/
inductive PublicKeyAlgorithm where
  | Ecdsa_Nistp256_With_Sha256
  deriving DecidableEq, Repr

/-- Modelled from the spec: `field_size` is declared outside the sources at
hand; the coordinate width of the supported curve is 32 bytes. -/
def field_size : PublicKeyAlgorithm → Nat
  | .Ecdsa_Nistp256_With_Sha256 => 32

/-- The value `CryptoPP::SHA256::DIGESTSIZE`. -/
def SHA256_DIGESTSIZE : Nat := 32

/-- `CryptoPP::Integer::Encode(output, len)`: the `len` low-order bytes of the
integer, most significant first (zero padded, high bytes dropped). -/
def Integer_Encode (n : Nat) : Nat → ByteBuffer
  | 0 => []
  | len + 1 => Fin.ofNat (n / 256 ^ len) :: Integer_Encode n len

/-- `CryptoPP::Integer::Decode`: big-endian unsigned value of the bytes. -/
def Integer_Decode (bytes : ByteBuffer) : Nat :=
  bytes.foldl (fun acc b => acc * 256 + b.val) 0

/-- A lowercase hexadecimal digit. -/
def hex_digit (n : Nat) : Char :=
  if n < 10 then Char.ofNat (48 + n) else Char.ofNat (87 + n)

/-- `boost::format("%02x") % (int)b` for an octet: two lowercase digits. -/
def format_02x (b : Byte) : List Char :=
  [hex_digit (b.val / 16), hex_digit (b.val % 16)]

/-- The text a `std::stringstream` holds after streaming every byte of a
buffer through `format_02x` (lines 205 to 213). -/
def hex_string : ByteBuffer → List Char
  | [] => []
  | b :: rest => format_02x b ++ hex_string rest

/-- The lookup table of `CryptoPP::HexDecoder`: digits and letters of either
case map to their value, any other character is skipped. -/
def HexDecoder_lookup (c : Char) : Option Nat :=
  let n := c.toNat
  if 48 ≤ n ∧ n ≤ 57 then some (n - 48)
  else if 65 ≤ n ∧ n ≤ 70 then some (n - 55)
  else if 97 ≤ n ∧ n ≤ 102 then some (n - 87)
  else none

/-- `CryptoPP::HexDecoder` after `Put` and `MessageEnd`: `pending` is the high
nibble waiting for its partner; a trailing single nibble is discarded. -/
def HexDecoder_run : Option Nat → List Char → ByteBuffer
  | _, [] => []
  | none, c :: cs =>
    match HexDecoder_lookup c with
    | none => HexDecoder_run none cs
    | some v => HexDecoder_run (some v) cs
  | some hi, c :: cs =>
    match HexDecoder_lookup c with
    | none => HexDecoder_run (some hi) cs
    | some lo => Fin.ofNat (hi * 16 + lo) :: HexDecoder_run none cs

/-- The bytes retrievable from a fresh `CryptoPP::HexDecoder` fed with `text`. -/
def HexDecoder (text : List Char) : ByteBuffer :=
  HexDecoder_run none text

/-! ## CertificateManager -/

/-- The members `m_private_key` and `m_certificate` of a `CertificateManager`. -/
structure CertificateManager where
  m_private_key : PrivateKey
  m_certificate : Certificate

/-- `CertificateManager::buffer_cast_to_string` (lines 129 to 134): every octet
is copied into the string as one character. -/
def buffer_cast_to_string (buffer : ByteBuffer) : ByteBuffer := buffer

/-- `CertificateManager::get_time` (lines 269 to 272): the raw time converted to
`Time64` and multiplied by 1000 twice, in 64-bit unsigned arithmetic. -/
def get_time (m_time_now : Nat) : Nat :=
  (m_time_now % 2 ^ 64 * 1000 * 1000) % 2 ^ 64

/-- `CertificateManager::get_time_in_seconds` (lines 274 to 277): the raw time
returned as `Time32`. -/
def get_time_in_seconds (m_time_now : Nat) : Nat :=
  m_time_now % 2 ^ 32

/-- `CertificateManager::sign_data` (lines 239 to 267).  `substr(0, 32)` keeps at
most 32 characters; `substr(32)` throws when the string has fewer than 32. -/
def sign_data (be : Backend) (private_key : PrivateKey) (data_buffer : ByteBuffer)
    (prng : Seed) : Except Abort EcdsaSignature :=
  let data := buffer_cast_to_string data_buffer
  let signature := be.sign private_key data prng
  let signature_x := signature.take 32
  if signature.length < 32 then Except.error Abort.out_of_range
  else
    let signature_s := signature.drop 32
    let coordinate : X_Coordinate_Only := { x := signature_x }
    Except.ok { R := EccPoint.x_coordinate_only coordinate, s := signature_s }

/-- `CertificateManager::generate_certificate` (lines 136 to 189).  The
certificate is signed while its signature field is still default-constructed. -/
def generate_certificate (be : Backend) (cd : Codec) (m_private_key : PrivateKey)
    (m_time_now : Nat) (public_key : ECPPoint) (prng : Seed) : Except Abort Certificate :=
  let signer_info := SignerInfo.self
  let subject_info : SubjectInfo :=
    { subject_type := SubjectType.Authorization_Ticket, subject_name := [] }
  let coordinates : Uncompressed :=
    { x := Integer_Encode public_key.x 32, y := Integer_Encode public_key.y 32 }
  if SHA256_DIGESTSIZE ≠ coordinates.x.length then Except.error Abort.coordinate_size_mismatch
  else if SHA256_DIGESTSIZE ≠ coordinates.y.length then
    Except.error Abort.coordinate_size_mismatch
  else
    let ecc_point := EccPoint.uncompressed coordinates
    let ecdsa : ecdsa_nistp256_with_sha256 := { public_key := ecc_point }
    let verification_key : VerificationKey :=
      { key := PublicKey.ecdsa_nistp256_with_sha256 ecdsa }
    let subject_attributes :=
      [SubjectAttribute.verification_key verification_key,
       SubjectAttribute.assurance_level { raw := 0 }]
    let start_and_end : StartAndEndValidity :=
      { start_validity := get_time_in_seconds m_time_now,
        end_validity := (get_time_in_seconds m_time_now + 3600 * 24) % 2 ^ 32 }
    let validity_restriction := [ValidityRestriction.time_start_and_end start_and_end]
    let certificate := Certificate.mk signer_info subject_info subject_attributes
      validity_restriction EcdsaSignature.default
    let data_buffer := cd.convert_for_signing_certificate certificate
    match sign_data be m_private_key data_buffer prng with
    | Except.error e => Except.error e
    | Except.ok sig =>
      Except.ok (Certificate.mk signer_info subject_info subject_attributes
        validity_restriction sig)

/-- The constructor `CertificateManager::CertificateManager` (lines 18 to 32);
`prng` is the pool of the constructor, `prng_sign` the pool of the `sign_data`
call inside `generate_certificate`. -/
def CertificateManager.construct (be : Backend) (cd : Codec) (time_now : Nat)
    (prng prng_sign : Seed) : Except Abort CertificateManager :=
  let m_private_key := be.generate_private_key prng
  if be.validate_private_key m_private_key = false then
    Except.error Abort.private_key_invalid
  else
    let public_key := be.make_public_key m_private_key
    if be.validate_public_key public_key = false then
      Except.error Abort.made_public_key_invalid
    else
      match generate_certificate be cd m_private_key time_now public_key prng_sign with
      | Except.error e => Except.error e
      | Except.ok certificate =>
        Except.ok { m_private_key := m_private_key, m_certificate := certificate }

/-- `CertificateManager::sign_message` (lines 34 to 76). -/
def sign_message (be : Backend) (cd : Codec) (mgr : CertificateManager) (m_time_now : Nat)
    (request : EncapRequest) (prng : Seed) : Except Abort EncapConfirm :=
  let payload : Payload :=
    { type := PayloadType.Signed, buffer := request.plaintext_payload }
  let header_fields :=
    SecuredMessage.default.header_fields
      ++ [HeaderField.generation_time (get_time m_time_now)]
      ++ [HeaderField.its_aid (36 % 2 ^ 16)]
      ++ [HeaderField.signer_info (SignerInfo.certificate mgr.m_certificate)]
  let sec_packet : SecuredMessage :=
    { header_fields := header_fields, payload := payload,
      trailer_fields := SecuredMessage.default.trailer_fields }
  let temp_signature : EcdsaSignature :=
    { R := EccPoint.x_coordinate_only
        { x := List.replicate (field_size PublicKeyAlgorithm.Ecdsa_Nistp256_With_Sha256) 0 },
      s := List.replicate (field_size PublicKeyAlgorithm.Ecdsa_Nistp256_With_Sha256) 0 }
  let trailer_field_size := cd.get_size (TrailerField.signature temp_signature)
  let data_payload :=
    cd.convert_for_signing sec_packet TrailerFieldType.Signature trailer_field_size
  let data_buffer := request.plaintext_pdu ++ data_payload
  match sign_data be mgr.m_private_key data_buffer prng with
  | Except.error e => Except.error e
  | Except.ok sig =>
    let trailer_field := TrailerField.signature sig
    if cd.get_size trailer_field = trailer_field_size then
      Except.ok
        { sec_packet :=
            { sec_packet with trailer_fields := sec_packet.trailer_fields ++ [trailer_field] } }
    else Except.error Abort.trailer_field_size_mismatch

/-- The loop of lines 195 to 200: the first verification-key attribute, read
with `boost::get` as an ECDSA key holding an uncompressed point. -/
def find_public_key_coordinates : List SubjectAttribute → Except Abort (Option Uncompressed)
  | [] => Except.ok none
  | SubjectAttribute.verification_key
      { key := PublicKey.ecdsa_nistp256_with_sha256
          { public_key := EccPoint.uncompressed p } } :: _ => Except.ok (some p)
  | SubjectAttribute.verification_key _ :: _ => Except.error Abort.bad_get
  | SubjectAttribute.assurance_level _ :: rest => find_public_key_coordinates rest

/-- `CertificateManager::get_public_key_from_certificate` (lines 191 to 237).
Both integers are decoded with the last value of `len`, the y length. -/
def get_public_key_from_certificate (be : Backend) (certificate : Certificate) :
    Except Abort ECPPoint :=
  match find_public_key_coordinates certificate.subject_attributes with
  | Except.error e => Except.error e
  | Except.ok none => Except.error Abort.public_key_coordinates_missing
  | Except.ok (some public_key_coordinates) =>
    let x_coordinate := hex_string public_key_coordinates.x
    let y_coordinate := hex_string public_key_coordinates.y
    let x_decoder := HexDecoder x_coordinate
    let y_decoder := HexDecoder y_coordinate
    if x_decoder.length ≠ SHA256_DIGESTSIZE then Except.error Abort.x_length_mismatch
    else if y_decoder.length ≠ SHA256_DIGESTSIZE then Except.error Abort.y_length_mismatch
    else
      let len := y_decoder.length
      let q : ECPPoint :=
        { identity := false,
          x := Integer_Decode (x_decoder.take len),
          y := Integer_Decode (y_decoder.take len) }
      if be.validate_public_key q = true then Except.ok q
      else Except.error Abort.recovered_public_key_invalid

/-- The loop of lines 81 to 87: the certificate of the first signer-info
header field; line 83 asserts that this field holds a certificate. -/
def find_certificate : List HeaderField → Except Abort (Option Certificate)
  | [] => Except.ok none
  | HeaderField.signer_info (SignerInfo.certificate cert) :: _ => Except.ok (some cert)
  | HeaderField.signer_info _ :: _ => Except.error Abort.signer_info_not_certificate
  | HeaderField.generation_time _ :: rest => find_certificate rest
  | HeaderField.its_aid _ :: rest => find_certificate rest

/-- `CertificateManager::verify_message` (lines 78 to 127).  The request is a
`const` reference, so each `std::move` of it copies. -/
def verify_message (be : Backend) (cd : Codec) (request : DecapRequest) :
    Except Abort DecapConfirm :=
  match find_certificate request.sec_packet.header_fields with
  | Except.error e => Except.error e
  | Except.ok none => Except.error Abort.certificate_missing
  | Except.ok (some certificate) =>
    match get_public_key_from_certificate be certificate with
    | Except.error e => Except.error e
    | Except.ok public_key =>
      let secured_message := request.sec_packet
      match secured_message.trailer_fields with
      | [] => Except.error Abort.trailer_fields_empty
      | it :: _ =>
        let signature := buffer_cast_to_string (cd.extract_signature_buffer it)
        let payload := buffer_cast_to_string
          (cd.convert_for_signing secured_message it.get_type (cd.get_size it))
        let pdu := buffer_cast_to_string request.sec_pdu
        let message := pdu ++ payload
        let result := be.verify public_key (signature ++ message)
        Except.ok
          { plaintext_payload := request.sec_packet.payload.buffer,
            report := if result = true then ReportType.Success
                      else ReportType.False_Signature }

/-! ## Properties assumed of the capabilities -/

/-- The verifier accepts, under the public key made from a private key, every
signature the signer produced with that private key over the same bytes. -/
def Backend.VerifiesOwnSignatures (be : Backend) : Prop :=
  ∀ (k : PrivateKey) (data : ByteBuffer) (prng : Seed),
    be.verify (be.make_public_key k) (be.sign k data prng ++ data) = true

/-- The signer emits the fixed-length form: 64 bytes, r then s. -/
def Backend.SignatureLength64 (be : Backend) : Prop :=
  ∀ (k : PrivateKey) (data : ByteBuffer) (prng : Seed), (be.sign k data prng).length = 64

/-- A point that passes validation is not the identity and has coordinates
below `2^256`. -/
def Backend.ValidPointsFit (be : Backend) : Prop :=
  ∀ q : ECPPoint, be.validate_public_key q = true →
    q.identity = false ∧ q.x < 2 ^ 256 ∧ q.y < 2 ^ 256

/-- The signed byte range of a message is a function of its header fields,
its payload, the trailer type and the trailer size. -/
def Codec.SignedRangeIgnoresTrailer (cd : Codec) : Prop :=
  ∀ (m m' : SecuredMessage) (ty : TrailerFieldType) (sz : Nat),
    m.header_fields = m'.header_fields → m.payload = m'.payload →
    cd.convert_for_signing m ty sz = cd.convert_for_signing m' ty sz

/-- The size of a signature trailer field with an x-only R depends only on the
byte lengths of R and s. -/
def Codec.SizeByLength (cd : Codec) : Prop :=
  ∀ (x x' s s' : ByteBuffer), x.length = x'.length → s.length = s'.length →
    cd.get_size (TrailerField.signature { R := EccPoint.x_coordinate_only { x := x }, s := s })
      = cd.get_size
          (TrailerField.signature { R := EccPoint.x_coordinate_only { x := x' }, s := s' })

/-- The signature buffer of a trailer field with an x-only R is R then s. -/
def Codec.SignatureBufferIsRS (cd : Codec) : Prop :=
  ∀ (x s : ByteBuffer),
    cd.extract_signature_buffer
      (TrailerField.signature { R := EccPoint.x_coordinate_only { x := x }, s := s }) = x ++ s

/-- The signed byte range of a certificate does not depend on its signature. -/
def Codec.CertificateRangeIgnoresSignature (cd : Codec) : Prop :=
  ∀ (si : SignerInfo) (su : SubjectInfo) (sa : List SubjectAttribute)
    (vr : List ValidityRestriction) (sg sg' : EcdsaSignature),
    cd.convert_for_signing_certificate (Certificate.mk si su sa vr sg)
      = cd.convert_for_signing_certificate (Certificate.mk si su sa vr sg')

/-! ## A deterministic test backend and codec

Used to instantiate the capabilities on concrete inputs. -/

/-- The field prime of secp256r1. -/
def secp256r1_p : Nat := 2 ^ 256 - 2 ^ 224 + 2 ^ 192 + 2 ^ 96 - 1

/-- The coefficient b of secp256r1 (the coefficient a is p - 3). -/
def secp256r1_b : Nat :=
  41058363725152142129326129780047268409114441015993725554835256314039467401291

/-- The base point of secp256r1. -/
def secp256r1_G : ECPPoint :=
  { identity := false,
    x := 48439561293906451759052585252797914202762949526041747995844080717082404635286,
    y := 36134250956749795798585127919587881956611106672985015071877198253568414405109 }

/-- Membership of an affine point in the curve secp256r1. -/
def on_secp256r1 (q : ECPPoint) : Bool :=
  !q.identity && decide (q.x < secp256r1_p) && decide (q.y < secp256r1_p)
    && decide (q.y * q.y % secp256r1_p
        = (q.x ^ 3 + (secp256r1_p - 3) * q.x + secp256r1_b) % secp256r1_p)

/-- A checksum standing in for the hash of the test backend. -/
def test_checksum (data : ByteBuffer) : Nat :=
  data.foldl (fun acc b => (acc * 31 + b.val + 1) % 2 ^ 256) 7

/-- A deterministic backend: every private key has the base point as public
key, a signature is the encoded seed followed by the encoded checksum of the
data, and the verifier recomputes the checksum. -/
def testBackend : Backend :=
  { generate_private_key := fun prng => prng + 1,
    validate_private_key := fun k => decide (0 < k),
    make_public_key := fun _ => secp256r1_G,
    validate_public_key := on_secp256r1,
    sign := fun _ data prng => Integer_Encode prng 32 ++ Integer_Encode (test_checksum data) 32,
    verify := fun q stream =>
      on_secp256r1 q
        && decide ((stream.drop 32).take 32
            = Integer_Encode (test_checksum (stream.drop 64)) 32) }

/-- Test encoding of an ECC point: a type octet and the coordinates. -/
def test_encode_ecc_point : EccPoint → ByteBuffer
  | EccPoint.x_coordinate_only p => 0 :: p.x
  | EccPoint.uncompressed p => 4 :: (p.x ++ p.y)

/-- Test encoding of a subject attribute. -/
def test_encode_subject_attribute : SubjectAttribute → ByteBuffer
  | SubjectAttribute.verification_key
      { key := PublicKey.ecdsa_nistp256_with_sha256 k } =>
    0 :: 0 :: test_encode_ecc_point k.public_key
  | SubjectAttribute.assurance_level a => [2, a.raw]

/-- Test encoding of a validity restriction. -/
def test_encode_validity_restriction : ValidityRestriction → ByteBuffer
  | ValidityRestriction.time_start_and_end v =>
    1 :: (Integer_Encode v.start_validity 4 ++ Integer_Encode v.end_validity 4)

/-- Test encoding of a header field; a signer info is encoded by its tag. -/
def test_encode_header_field : HeaderField → ByteBuffer
  | HeaderField.generation_time t => 0 :: Integer_Encode t 8
  | HeaderField.its_aid aid => 5 :: Integer_Encode aid 2
  | HeaderField.signer_info _ => [128]

/-- Concatenation of the encodings of the elements of a list. -/
def test_encode_list {α : Type} (f : α → ByteBuffer) : List α → ByteBuffer
  | [] => []
  | a :: rest => f a ++ test_encode_list f rest

/-- A test codec: version octet, header fields, payload, trailer type and
trailer size for a message; attributes and restrictions for a certificate. -/
def testCodec : Codec :=
  { convert_for_signing := fun m _ sz =>
      2 :: (test_encode_list test_encode_header_field m.header_fields
        ++ (1 :: m.payload.buffer) ++ [1] ++ Integer_Encode sz 1),
    convert_for_signing_certificate := fun c =>
      2 :: (test_encode_list test_encode_subject_attribute c.subject_attributes
        ++ test_encode_list test_encode_validity_restriction c.validity_restriction),
    get_size := fun t =>
      match t with
      | TrailerField.signature sig => 2 + (test_encode_ecc_point sig.R).length + sig.s.length,
    extract_signature_buffer := fun t =>
      match t with
      | TrailerField.signature sig => (test_encode_ecc_point sig.R).drop 1 ++ sig.s }

/-- The test manager: constructed at time 1000 with seeds 5 and 6. -/
def testManager : Except Abort CertificateManager :=
  CertificateManager.construct testBackend testCodec 1000 5 6

/-- A placeholder certificate, for the unreachable branch of `testManagerValue`. -/
def test_certificate_fallback : Certificate :=
  Certificate.mk SignerInfo.self
    { subject_type := SubjectType.Authorization_Ticket, subject_name := [] } [] []
    EcdsaSignature.default

/-- The manager that `testManager` returns. -/
def testManagerValue : CertificateManager :=
  match testManager with
  | Except.ok mgr => mgr
  | Except.error _ => { m_private_key := 0, m_certificate := test_certificate_fallback }

/-- The secured message the test manager returns for payload `[1, 2, 3]` and PDU
`[9, 9]` at time 77 with seed 42. -/
def testSignedPacket : SecuredMessage :=
  match sign_message testBackend testCodec testManagerValue 77
      { plaintext_payload := [1, 2, 3], plaintext_pdu := [9, 9] } 42 with
  | Except.ok confirm => confirm.sec_packet
  | Except.error _ => SecuredMessage.default

/-! ## Lemmas on the encodings -/

theorem Integer_Encode_length (n len : Nat) : (Integer_Encode n len).length = len := by
  induction len with
  | zero => rfl
  | succ k ih => simp [Integer_Encode, ih]

theorem Integer_Decode_foldl (n : Nat) (len acc : Nat) :
    (Integer_Encode n len).foldl (fun a (b : Byte) => a * 256 + b.val) acc
      = acc * 256 ^ len + n % 256 ^ len := by
  induction len generalizing acc with
  | zero => simp [Integer_Encode, Nat.mod_one]
  | succ k ih =>
    simp only [Integer_Encode, List.foldl_cons]
    rw [ih]
    have hb : ((Fin.ofNat (n / 256 ^ k) : Byte)).val = n / 256 ^ k % 256 := rfl
    rw [hb, Nat.mod_pow_succ]
    ring

theorem Integer_Decode_Encode (n len : Nat) :
    Integer_Decode (Integer_Encode n len) = n % 256 ^ len := by
  unfold Integer_Decode
  rw [Integer_Decode_foldl]
  simp

theorem HexDecoder_lookup_hex_digit (n : Nat) (h : n < 16) :
    HexDecoder_lookup (hex_digit n) = some n := by
  interval_cases n <;> rfl

theorem HexDecoder_run_format (b : Byte) (rest : List Char) :
    HexDecoder_run none (format_02x b ++ rest) = b :: HexDecoder_run none rest := by
  have h1 : b.val / 16 < 16 := by have := b.isLt; omega
  have h2 : b.val % 16 < 16 := Nat.mod_lt _ (by decide)
  simp only [format_02x, List.cons_append, List.nil_append, HexDecoder_run,
    HexDecoder_lookup_hex_digit _ h1, HexDecoder_lookup_hex_digit _ h2]
  congr 1
  apply Fin.ext
  show (b.val / 16 * 16 + b.val % 16) % 256 = b.val
  have := b.isLt
  omega

theorem HexDecoder_hex_string (bytes : ByteBuffer) : HexDecoder (hex_string bytes) = bytes := by
  unfold HexDecoder
  induction bytes with
  | nil => rfl
  | cons b rest ih => rw [hex_string, HexDecoder_run_format, ih]

/-! ## Lemmas on the operations -/

theorem sign_data_of_length (be : Backend) (k : PrivateKey) (data : ByteBuffer) (prng : Seed)
    (h : 32 ≤ (be.sign k data prng).length) :
    sign_data be k data prng
      = Except.ok { R := EccPoint.x_coordinate_only { x := (be.sign k data prng).take 32 },
                    s := (be.sign k data prng).drop 32 } := by
  unfold sign_data buffer_cast_to_string
  simp only [Nat.not_lt.mpr h, if_false]

theorem sign_data_inv (be : Backend) (k : PrivateKey) (data : ByteBuffer) (prng : Seed)
    (sig : EcdsaSignature) (h : sign_data be k data prng = Except.ok sig) :
    32 ≤ (be.sign k data prng).length
      ∧ sig = { R := EccPoint.x_coordinate_only { x := (be.sign k data prng).take 32 },
                s := (be.sign k data prng).drop 32 } := by
  unfold sign_data buffer_cast_to_string at h
  by_cases hlt : (be.sign k data prng).length < 32
  · simp [hlt] at h
  · simp only [hlt, if_false, Except.ok.injEq] at h
    exact ⟨Nat.not_lt.mp hlt, h.symm⟩

theorem get_public_key_of_encoded (be : Backend) (x y : Nat) (hx : x < 2 ^ 256) (hy : y < 2 ^ 256)
    (si : SignerInfo) (su : SubjectInfo) (rest : List SubjectAttribute)
    (vr : List ValidityRestriction) (sg : EcdsaSignature) :
    get_public_key_from_certificate be
        (Certificate.mk si su
          (SubjectAttribute.verification_key
            { key := PublicKey.ecdsa_nistp256_with_sha256
                { public_key := EccPoint.uncompressed
                    { x := Integer_Encode x 32, y := Integer_Encode y 32 } } } :: rest)
          vr sg)
      = if be.validate_public_key { identity := false, x := x, y := y } = true
        then Except.ok { identity := false, x := x, y := y }
        else Except.error Abort.recovered_public_key_invalid := by
  have h256 : (256 : Nat) ^ 32 = 2 ^ 256 := by norm_num
  have hdx : Integer_Decode (Integer_Encode x 32) = x := by
    rw [Integer_Decode_Encode, h256, Nat.mod_eq_of_lt hx]
  have hdy : Integer_Decode (Integer_Encode y 32) = y := by
    rw [Integer_Decode_Encode, h256, Nat.mod_eq_of_lt hy]
  simp only [get_public_key_from_certificate, Certificate.subject_attributes,
    find_public_key_coordinates, HexDecoder_hex_string, Integer_Encode_length,
    SHA256_DIGESTSIZE, ne_eq, not_true_eq_false, if_false, List.take_of_length_le,
    le_refl, hdx, hdy]

theorem generate_certificate_of_length (be : Backend) (cd : Codec) (k : PrivateKey) (t : Nat)
    (pk : ECPPoint) (prng : Seed) (hl : be.SignatureLength64) :
    ∃ sig : EcdsaSignature,
      generate_certificate be cd k t pk prng
        = Except.ok (Certificate.mk SignerInfo.self
            { subject_type := SubjectType.Authorization_Ticket, subject_name := [] }
            [SubjectAttribute.verification_key
              { key := PublicKey.ecdsa_nistp256_with_sha256
                  { public_key := EccPoint.uncompressed
                      { x := Integer_Encode pk.x 32, y := Integer_Encode pk.y 32 } } },
             SubjectAttribute.assurance_level { raw := 0 }]
            [ValidityRestriction.time_start_and_end
              { start_validity := t % 2 ^ 32, end_validity := (t % 2 ^ 32 + 86400) % 2 ^ 32 }]
            sig)
      ∧ sign_data be k
          (cd.convert_for_signing_certificate (Certificate.mk SignerInfo.self
            { subject_type := SubjectType.Authorization_Ticket, subject_name := [] }
            [SubjectAttribute.verification_key
              { key := PublicKey.ecdsa_nistp256_with_sha256
                  { public_key := EccPoint.uncompressed
                      { x := Integer_Encode pk.x 32, y := Integer_Encode pk.y 32 } } },
             SubjectAttribute.assurance_level { raw := 0 }]
            [ValidityRestriction.time_start_and_end
              { start_validity := t % 2 ^ 32, end_validity := (t % 2 ^ 32 + 86400) % 2 ^ 32 }]
            EcdsaSignature.default)) prng = Except.ok sig := by
  have h32 : ∀ data, 32 ≤ (be.sign k data prng).length := fun data => by
    rw [hl k data prng]; decide
  refine ⟨_, ?_, sign_data_of_length be k _ prng (h32 _)⟩
  simp only [generate_certificate, get_time_in_seconds, Integer_Encode_length,
    SHA256_DIGESTSIZE, ne_eq, not_true_eq_false, if_false]
  rw [sign_data_of_length be k _ prng (h32 _)]

theorem construct_of_valid (be : Backend) (cd : Codec) (t : Nat) (prng prng_sign : Seed)
    (cert : Certificate)
    (hk : be.validate_private_key (be.generate_private_key prng) = true)
    (hq : be.validate_public_key (be.make_public_key (be.generate_private_key prng)) = true)
    (hc : generate_certificate be cd (be.generate_private_key prng) t
            (be.make_public_key (be.generate_private_key prng)) prng_sign = Except.ok cert) :
    CertificateManager.construct be cd t prng prng_sign
      = Except.ok { m_private_key := be.generate_private_key prng, m_certificate := cert } := by
  simp [CertificateManager.construct, hk, hq, hc]

theorem construct_inv (be : Backend) (cd : Codec) (t : Nat) (prng prng_sign : Seed)
    (mgr : CertificateManager)
    (h : CertificateManager.construct be cd t prng prng_sign = Except.ok mgr) :
    be.validate_public_key (be.make_public_key mgr.m_private_key) = true
      ∧ generate_certificate be cd mgr.m_private_key t (be.make_public_key mgr.m_private_key)
          prng_sign = Except.ok mgr.m_certificate := by
  unfold CertificateManager.construct at h
  by_cases hk : be.validate_private_key (be.generate_private_key prng) = false
  · simp [hk] at h
  · by_cases hq :
        be.validate_public_key (be.make_public_key (be.generate_private_key prng)) = false
    · simp [hk, hq] at h
    · simp only [hk, hq, if_false] at h
      cases hg : generate_certificate be cd (be.generate_private_key prng) t
          (be.make_public_key (be.generate_private_key prng)) prng_sign with
      | error e => rw [hg] at h; cases h
      | ok c =>
        rw [hg] at h
        cases h
        exact ⟨by simpa using hq, hg⟩

theorem generate_certificate_inv (be : Backend) (cd : Codec) (k : PrivateKey) (t : Nat)
    (pk : ECPPoint) (prng : Seed) (cert : Certificate)
    (h : generate_certificate be cd k t pk prng = Except.ok cert) :
    ∃ sig : EcdsaSignature,
      cert = Certificate.mk SignerInfo.self
            { subject_type := SubjectType.Authorization_Ticket, subject_name := [] }
            [SubjectAttribute.verification_key
              { key := PublicKey.ecdsa_nistp256_with_sha256
                  { public_key := EccPoint.uncompressed
                      { x := Integer_Encode pk.x 32, y := Integer_Encode pk.y 32 } } },
             SubjectAttribute.assurance_level { raw := 0 }]
            [ValidityRestriction.time_start_and_end
              { start_validity := t % 2 ^ 32, end_validity := (t % 2 ^ 32 + 86400) % 2 ^ 32 }]
            sig
      ∧ sign_data be k
          (cd.convert_for_signing_certificate (Certificate.mk SignerInfo.self
            { subject_type := SubjectType.Authorization_Ticket, subject_name := [] }
            [SubjectAttribute.verification_key
              { key := PublicKey.ecdsa_nistp256_with_sha256
                  { public_key := EccPoint.uncompressed
                      { x := Integer_Encode pk.x 32, y := Integer_Encode pk.y 32 } } },
             SubjectAttribute.assurance_level { raw := 0 }]
            [ValidityRestriction.time_start_and_end
              { start_validity := t % 2 ^ 32, end_validity := (t % 2 ^ 32 + 86400) % 2 ^ 32 }]
            EcdsaSignature.default)) prng = Except.ok sig := by
  simp only [generate_certificate, get_time_in_seconds, Integer_Encode_length,
    SHA256_DIGESTSIZE, ne_eq, not_true_eq_false, if_false] at h
  revert h
  cases hs : sign_data be k _ prng with
  | error e => intro h; cases h
  | ok sig =>
    intro h
    cases h
    exact ⟨sig, rfl, rfl⟩

theorem sign_message_of_laws (be : Backend) (cd : Codec) (mgr : CertificateManager) (t : Nat)
    (request : EncapRequest) (prng : Seed)
    (hl : be.SignatureLength64) (hs : cd.SizeByLength) :
    ∃ raw : ByteBuffer,
      raw = be.sign mgr.m_private_key
        (request.plaintext_pdu ++ cd.convert_for_signing
          { header_fields :=
              [HeaderField.generation_time (get_time t), HeaderField.its_aid 36,
               HeaderField.signer_info (SignerInfo.certificate mgr.m_certificate)],
            payload := { type := PayloadType.Signed, buffer := request.plaintext_payload },
            trailer_fields := [] }
          TrailerFieldType.Signature
          (cd.get_size (TrailerField.signature
            { R := EccPoint.x_coordinate_only { x := raw.take 32 }, s := raw.drop 32 }))) prng
      ∧ raw.length = 64
      ∧ sign_data be mgr.m_private_key
          (request.plaintext_pdu ++ cd.convert_for_signing
            { header_fields :=
                [HeaderField.generation_time (get_time t), HeaderField.its_aid 36,
                 HeaderField.signer_info (SignerInfo.certificate mgr.m_certificate)],
              payload := { type := PayloadType.Signed, buffer := request.plaintext_payload },
              trailer_fields := [] }
            TrailerFieldType.Signature
            (cd.get_size (TrailerField.signature
              { R := EccPoint.x_coordinate_only { x := raw.take 32 }, s := raw.drop 32 })))
          prng
          = Except.ok { R := EccPoint.x_coordinate_only { x := raw.take 32 }, s := raw.drop 32 }
      ∧ sign_message be cd mgr t request prng
        = Except.ok
            { sec_packet :=
                { header_fields :=
                    [HeaderField.generation_time (get_time t), HeaderField.its_aid 36,
                     HeaderField.signer_info (SignerInfo.certificate mgr.m_certificate)],
                  payload := { type := PayloadType.Signed, buffer := request.plaintext_payload },
                  trailer_fields :=
                    [TrailerField.signature
                      { R := EccPoint.x_coordinate_only { x := raw.take 32 },
                        s := raw.drop 32 }] } } := by
  have hsize : ∀ raw : ByteBuffer, raw.length = 64 →
      cd.get_size (TrailerField.signature
          { R := EccPoint.x_coordinate_only { x := raw.take 32 }, s := raw.drop 32 })
        = cd.get_size (TrailerField.signature
          { R := EccPoint.x_coordinate_only
              { x := List.replicate (field_size PublicKeyAlgorithm.Ecdsa_Nistp256_With_Sha256) 0 },
            s := List.replicate (field_size PublicKeyAlgorithm.Ecdsa_Nistp256_With_Sha256) 0 }) := by
    intro raw hraw
    apply hs
    · simp [field_size, hraw]
    · simp [field_size, hraw]
  have h32 : ∀ data, 32 ≤ (be.sign mgr.m_private_key data prng).length := fun data => by
    rw [hl _ data prng]; decide
  refine ⟨be.sign mgr.m_private_key
    (request.plaintext_pdu ++ cd.convert_for_signing
      { header_fields :=
          [HeaderField.generation_time (get_time t), HeaderField.its_aid 36,
           HeaderField.signer_info (SignerInfo.certificate mgr.m_certificate)],
        payload := { type := PayloadType.Signed, buffer := request.plaintext_payload },
        trailer_fields := [] }
      TrailerFieldType.Signature
      (cd.get_size (TrailerField.signature
        { R := EccPoint.x_coordinate_only
            { x := List.replicate (field_size PublicKeyAlgorithm.Ecdsa_Nistp256_With_Sha256) 0 },
          s := List.replicate (field_size PublicKeyAlgorithm.Ecdsa_Nistp256_With_Sha256) 0 })))
    prng, ?_, hl _ _ _, ?_, ?_⟩
  · rw [hsize _ (hl _ _ _)]
  · rw [hsize _ (hl _ _ _)]
    exact sign_data_of_length be _ _ prng (h32 _)
  · simp only [sign_message, SecuredMessage.default, List.nil_append, List.cons_append,
      List.append_nil]
    rw [sign_data_of_length be _ _ prng (h32 _)]
    simp only [hsize _ (hl _ _ _), if_true]
    rfl

theorem get_public_key_of_constructed (be : Backend) (cd : Codec) (ha : be.ValidPointsFit)
    (t : Nat) (prng prng_sign : Seed) (mgr : CertificateManager)
    (hmgr : CertificateManager.construct be cd t prng prng_sign = Except.ok mgr) :
    get_public_key_from_certificate be mgr.m_certificate
      = Except.ok (be.make_public_key mgr.m_private_key) := by
  obtain ⟨hq, hg⟩ := construct_inv be cd t prng prng_sign mgr hmgr
  obtain ⟨sig, hcert, _⟩ := generate_certificate_inv be cd _ t _ prng_sign _ hg
  obtain ⟨hid, hx, hy⟩ := ha _ hq
  have hpk : ({ identity := false, x := (be.make_public_key mgr.m_private_key).x,
                y := (be.make_public_key mgr.m_private_key).y } : ECPPoint)
      = be.make_public_key mgr.m_private_key := by
    cases hp : be.make_public_key mgr.m_private_key with
    | mk i x y =>
      rw [hp] at hid
      simp only at hid
      simp [hid]
  rw [hcert, get_public_key_of_encoded be _ _ hx hy, hpk, if_pos hq]

theorem find_certificate_none (fields : List HeaderField)
    (h : ∀ f ∈ fields, f.get_type ≠ HeaderFieldType.Signer_Info) :
    find_certificate fields = Except.ok none := by
  induction fields with
  | nil => rfl
  | cons f rest ih =>
    have hrest : ∀ g ∈ rest, g.get_type ≠ HeaderFieldType.Signer_Info :=
      fun g hg => h g (List.mem_cons_of_mem _ hg)
    cases f with
    | generation_time t => simpa [find_certificate] using ih hrest
    | its_aid aid => simpa [find_certificate] using ih hrest
    | signer_info info => exact absurd rfl (h _ (List.mem_cons_self _ _))

theorem find_certificate_first (pre post : List HeaderField) (cert : Certificate)
    (h : ∀ f ∈ pre, f.get_type ≠ HeaderFieldType.Signer_Info) :
    find_certificate (pre ++ HeaderField.signer_info (SignerInfo.certificate cert) :: post)
      = Except.ok (some cert) := by
  induction pre with
  | nil => rfl
  | cons f rest ih =>
    have hrest : ∀ g ∈ rest, g.get_type ≠ HeaderFieldType.Signer_Info :=
      fun g hg => h g (List.mem_cons_of_mem _ hg)
    cases f with
    | generation_time t => simpa [find_certificate] using ih hrest
    | its_aid aid => simpa [find_certificate] using ih hrest
    | signer_info info => exact absurd rfl (h _ (List.mem_cons_self _ _))

theorem get_time_of_raw32 (t : Nat) (ht : t < 2 ^ 32) : get_time t = t * 1000000 := by
  unfold get_time
  omega

/-! ## The test capabilities satisfy the assumed properties -/

theorem testManager_ok :
    CertificateManager.construct testBackend testCodec 1000 5 6 = Except.ok testManagerValue := by
  rfl


theorem testBackend_length : testBackend.SignatureLength64 := by
  intro k data prng
  simp [testBackend, Integer_Encode_length]

theorem testBackend_verifies : testBackend.VerifiesOwnSignatures := by
  intro k data prng
  have hG : on_secp256r1 secp256r1_G = true := by decide
  have h64 : (Integer_Encode prng 32 ++ Integer_Encode (test_checksum data) 32 ++ data).drop 64
      = data := by
    apply List.drop_left'
    simp [Integer_Encode_length]
  have h32 :
      ((Integer_Encode prng 32 ++ Integer_Encode (test_checksum data) 32 ++ data).drop 32).take 32
        = Integer_Encode (test_checksum data) 32 := by
    rw [List.append_assoc, List.drop_left' (Integer_Encode_length _ _),
      List.take_left' (Integer_Encode_length _ _)]
  simp only [testBackend, hG, h64, h32, decide_True, Bool.and_self]

theorem testBackend_valid_fit : testBackend.ValidPointsFit := by
  intro q hq
  simp only [testBackend, on_secp256r1, Bool.and_eq_true, Bool.not_eq_true', decide_eq_true_eq] at hq
  obtain ⟨⟨⟨hid, hx⟩, hy⟩, _⟩ := hq
  have hp : secp256r1_p < 2 ^ 256 := by decide
  exact ⟨hid, lt_trans hx hp, lt_trans hy hp⟩

theorem testCodec_range : testCodec.SignedRangeIgnoresTrailer := by
  intro m m' ty sz hh hp
  simp [testCodec, hh, hp]

theorem testCodec_size : testCodec.SizeByLength := by
  intro x x' s s' hx hs
  simp [testCodec, test_encode_ecc_point, hx, hs]

theorem testCodec_signature_buffer : testCodec.SignatureBufferIsRS := by
  intro x s
  simp [testCodec, test_encode_ecc_point]

theorem testCodec_certificate_range : testCodec.CertificateRangeIgnoresSignature := by
  intro si su sa vr sg sg'
  rfl

/-! ## Properties of the operations -/

/-- C1: a manager produced by the constructor verifies what it signed.  For every
payload `P`, lower-layer PDU and current time, `sign_message` returns a secured
message, and `verify_message` on that message with the same PDU bytes returns
report `Success` and plaintext payload `P`.  Assumed of the capabilities: the
verifier accepts the signer's output under the matching key, signatures have 64
bytes, valid points fit in 32 bytes, the signed range is a function of header
fields, payload, trailer type and trailer size, the trailer size depends on
lengths only, and the signature buffer is R followed by s. -/
theorem sign_then_verify_round_trip (be : Backend) (cd : Codec)
    (hv : be.VerifiesOwnSignatures) (hl : be.SignatureLength64) (ha : be.ValidPointsFit)
    (hc : cd.SignedRangeIgnoresTrailer) (hs : cd.SizeByLength) (he : cd.SignatureBufferIsRS)
    (time_constructed : Nat) (prng_key prng_certificate : Seed) (mgr : CertificateManager)
    (hmgr : CertificateManager.construct be cd time_constructed prng_key prng_certificate
      = Except.ok mgr)
    (P pdu : ByteBuffer) (time_now : Nat) (prng : Seed) :
    ∃ confirm : EncapConfirm,
      sign_message be cd mgr time_now { plaintext_payload := P, plaintext_pdu := pdu } prng
        = Except.ok confirm
      ∧ verify_message be cd { sec_packet := confirm.sec_packet, sec_pdu := pdu }
        = Except.ok { plaintext_payload := P, report := ReportType.Success } := by
  have hpk := get_public_key_of_constructed be cd ha _ _ _ mgr hmgr
  obtain ⟨raw, hraw, _, _, hsm⟩ :=
    sign_message_of_laws be cd mgr time_now { plaintext_payload := P, plaintext_pdu := pdu }
      prng hl hs
  refine ⟨_, hsm, ?_⟩
  have hsigned := hv mgr.m_private_key
    (pdu ++ cd.convert_for_signing
      { header_fields :=
          [HeaderField.generation_time (get_time time_now), HeaderField.its_aid 36,
           HeaderField.signer_info (SignerInfo.certificate mgr.m_certificate)],
        payload := { type := PayloadType.Signed, buffer := P },
        trailer_fields := [] }
      TrailerFieldType.Signature
      (cd.get_size (TrailerField.signature
        { R := EccPoint.x_coordinate_only { x := raw.take 32 }, s := raw.drop 32 }))) prng
  rw [← hraw] at hsigned
  have he' := he (raw.take 32) (raw.drop 32)
  have hc' : cd.convert_for_signing
      { header_fields :=
          [HeaderField.generation_time (get_time time_now), HeaderField.its_aid 36,
           HeaderField.signer_info (SignerInfo.certificate mgr.m_certificate)],
        payload := { type := PayloadType.Signed, buffer := P },
        trailer_fields :=
          [TrailerField.signature
            { R := EccPoint.x_coordinate_only { x := raw.take 32 }, s := raw.drop 32 }] }
      TrailerFieldType.Signature
      (cd.get_size (TrailerField.signature
        { R := EccPoint.x_coordinate_only { x := raw.take 32 }, s := raw.drop 32 }))
    = cd.convert_for_signing
      { header_fields :=
          [HeaderField.generation_time (get_time time_now), HeaderField.its_aid 36,
           HeaderField.signer_info (SignerInfo.certificate mgr.m_certificate)],
        payload := { type := PayloadType.Signed, buffer := P },
        trailer_fields := [] }
      TrailerFieldType.Signature
      (cd.get_size (TrailerField.signature
        { R := EccPoint.x_coordinate_only { x := raw.take 32 }, s := raw.drop 32 })) :=
    hc _ _ _ _ rfl rfl
  simp only [verify_message, find_certificate, hpk, TrailerField.get_type,
    buffer_cast_to_string, he', List.take_append_drop, hc', hsigned, if_true]


/-- Witness of C1 on the test backend: the scenario payload `[1, 2, 3]`. -/
theorem sign_then_verify_round_trip_witness :
    ∃ confirm : EncapConfirm,
      sign_message testBackend testCodec testManagerValue 77
          { plaintext_payload := [1, 2, 3], plaintext_pdu := [9, 9] } 42
        = Except.ok confirm
      ∧ verify_message testBackend testCodec
          { sec_packet := confirm.sec_packet, sec_pdu := [9, 9] }
        = Except.ok { plaintext_payload := [1, 2, 3], report := ReportType.Success } :=
  sign_then_verify_round_trip testBackend testCodec testBackend_verifies testBackend_length
    testBackend_valid_fit testCodec_range testCodec_size testCodec_signature_buffer
    1000 5 6 testManagerValue testManager_ok [1, 2, 3] [9, 9] 77 42

/-- C2: whenever `verify_message` returns a confirm, its plaintext payload is the
payload buffer of the request's secured message, and the report is `Success` or
`False_Signature`; the payload is the same under either report. -/
theorem verify_message_returns_request_payload (be : Backend) (cd : Codec)
    (request : DecapRequest) (confirm : DecapConfirm)
    (h : verify_message be cd request = Except.ok confirm) :
    confirm.plaintext_payload = request.sec_packet.payload.buffer
      ∧ (confirm.report = ReportType.Success ∨ confirm.report = ReportType.False_Signature) := by
  unfold verify_message at h
  split at h
  · cases h
  · cases h
  · split at h
    · cases h
    · simp only at h
      cases htf : request.sec_packet.trailer_fields with
      | nil => rw [htf] at h; cases h
      | cons it tail =>
        rw [htf] at h
        simp only [Except.ok.injEq] at h
        subst h
        refine ⟨rfl, ?_⟩
        simp only
        split
        · exact Or.inl rfl
        · exact Or.inr rfl

/-- Witness of C2: a signed message is answered with `Success`, a request with a
forged signature with `False_Signature`; each confirm carries the payload of its
request. -/
theorem verify_message_returns_request_payload_witness :
    (verify_message testBackend testCodec { sec_packet := testSignedPacket, sec_pdu := [9, 9] }
        = Except.ok { plaintext_payload := [1, 2, 3], report := ReportType.Success }
      ∧ verify_message testBackend testCodec
          { sec_packet :=
              { header_fields :=
                  [HeaderField.signer_info
                    (SignerInfo.certificate testManagerValue.m_certificate)],
                payload := { type := PayloadType.Signed, buffer := [1, 2, 4] },
                trailer_fields := [TrailerField.signature EcdsaSignature.default] },
            sec_pdu := [] }
        = Except.ok { plaintext_payload := [1, 2, 4], report := ReportType.False_Signature })
    ∧ (([1, 2, 3] : ByteBuffer) = testSignedPacket.payload.buffer
      ∧ (ReportType.Success = ReportType.Success
          ∨ ReportType.Success = ReportType.False_Signature))
    ∧ (([1, 2, 4] : ByteBuffer) = [1, 2, 4]
      ∧ (ReportType.False_Signature = ReportType.Success
          ∨ ReportType.False_Signature = ReportType.False_Signature)) :=
  ⟨⟨rfl, rfl⟩,
   verify_message_returns_request_payload testBackend testCodec
    { sec_packet := testSignedPacket, sec_pdu := [9, 9] }
    { plaintext_payload := [1, 2, 3], report := ReportType.Success } rfl,
   verify_message_returns_request_payload testBackend testCodec
    { sec_packet :=
        { header_fields :=
            [HeaderField.signer_info (SignerInfo.certificate testManagerValue.m_certificate)],
          payload := { type := PayloadType.Signed, buffer := [1, 2, 4] },
          trailer_fields := [TrailerField.signature EcdsaSignature.default] },
      sec_pdu := [] }
    { plaintext_payload := [1, 2, 4], report := ReportType.False_Signature } rfl⟩

/-- C3 (amended): for every current time `t` with `t + 86400 < 2^32`, the
constructor returns a manager whose certificate holds exactly one validity
restriction, a start/end restriction with `start_validity = t` and
`end_validity - start_validity = 86400`, both read as the stored `Time32`
values.  Assumed of the backend: the generated keys pass validation and
signatures have 64 bytes. -/
theorem certificate_validity_window (be : Backend) (cd : Codec) (t : Nat)
    (prng prng_sign : Seed) (hwrap : t + 86400 < 2 ^ 32)
    (hk : be.validate_private_key (be.generate_private_key prng) = true)
    (hq : be.validate_public_key (be.make_public_key (be.generate_private_key prng)) = true)
    (hl : be.SignatureLength64) :
    ∃ (mgr : CertificateManager) (v : StartAndEndValidity),
      CertificateManager.construct be cd t prng prng_sign = Except.ok mgr
      ∧ mgr.m_certificate.validity_restriction = [ValidityRestriction.time_start_and_end v]
      ∧ v.start_validity = t
      ∧ (v.end_validity : Int) - (v.start_validity : Int) = 86400 := by
  have ht : t < 2 ^ 32 := by omega
  obtain ⟨sig, hgen, _⟩ := generate_certificate_of_length be cd (be.generate_private_key prng) t
    (be.make_public_key (be.generate_private_key prng)) prng_sign hl
  refine ⟨_, _, construct_of_valid be cd t prng prng_sign _ hk hq hgen, rfl, ?_, ?_⟩
  · exact Nat.mod_eq_of_lt ht
  · show (((t % 2 ^ 32 + 86400) % 2 ^ 32 : Nat) : Int) - ((t % 2 ^ 32 : Nat) : Int) = 86400
    rw [Nat.mod_eq_of_lt ht, Nat.mod_eq_of_lt hwrap]
    push_cast
    ring

/-- Witness of C3 (amended): construction at time 1000 on the test backend. -/
theorem certificate_validity_window_witness :
    (1000 + 86400 < 2 ^ 32
      ∧ testBackend.validate_private_key (testBackend.generate_private_key 5) = true
      ∧ testBackend.validate_public_key
          (testBackend.make_public_key (testBackend.generate_private_key 5)) = true)
    ∧ ∃ (mgr : CertificateManager) (v : StartAndEndValidity),
      CertificateManager.construct testBackend testCodec 1000 5 6 = Except.ok mgr
      ∧ mgr.m_certificate.validity_restriction = [ValidityRestriction.time_start_and_end v]
      ∧ v.start_validity = 1000
      ∧ (v.end_validity : Int) - (v.start_validity : Int) = 86400 :=
  ⟨⟨by decide, by decide, by decide⟩,
    certificate_validity_window testBackend testCodec 1000 5 6 (by decide) (by decide)
      (by decide) testBackend_length⟩

/-- Counterexample to C3 as stated: at the raw time `2^32 - 1` the constructor
returns a certificate whose single restriction has `start_validity = 4294967295`
and `end_validity = 86399`, because line 175 adds in `Time32`; the difference of
the stored values is not 86400. -/
theorem validity_window_wraps_at_max_time :
    ∃ (mgr : CertificateManager) (v : StartAndEndValidity),
      CertificateManager.construct testBackend testCodec 4294967295 5 6 = Except.ok mgr
      ∧ mgr.m_certificate.validity_restriction = [ValidityRestriction.time_start_and_end v]
      ∧ v.start_validity = 4294967295
      ∧ v.end_validity = 86399
      ∧ ¬ ((v.end_validity : Int) - (v.start_validity : Int) = 86400) := by
  obtain ⟨sig, hgen, _⟩ := generate_certificate_of_length testBackend testCodec
    (testBackend.generate_private_key 5) 4294967295
    (testBackend.make_public_key (testBackend.generate_private_key 5)) 6 testBackend_length
  exact ⟨_, _, construct_of_valid testBackend testCodec 4294967295 5 6 _ (by decide) (by decide)
    hgen, rfl, by decide, by decide, by decide⟩

/-- C4 (amended): for every request whose header-field list holds no
signer-information field, `verify_message` returns no confirm, hence no report:
the assertion `certificate.is_initialized()` of line 89 fails and the call
aborts. -/
theorem verify_message_without_signer_info (be : Backend) (cd : Codec) (request : DecapRequest)
    (h : ∀ f ∈ request.sec_packet.header_fields, f.get_type ≠ HeaderFieldType.Signer_Info) :
    verify_message be cd request = Except.error Abort.certificate_missing := by
  unfold verify_message
  rw [find_certificate_none _ h]

/-- Witness of C4 (amended): a header list with generation time and application
identifier only. -/
theorem verify_message_without_signer_info_witness :
    (∀ f ∈ [HeaderField.generation_time 5, HeaderField.its_aid 36],
        f.get_type ≠ HeaderFieldType.Signer_Info)
    ∧ verify_message testBackend testCodec
        { sec_packet :=
            { header_fields := [HeaderField.generation_time 5, HeaderField.its_aid 36],
              payload := { type := PayloadType.Signed, buffer := [1, 2, 3] },
              trailer_fields := [TrailerField.signature EcdsaSignature.default] },
          sec_pdu := [] }
      = Except.error Abort.certificate_missing :=
  ⟨by simp [HeaderField.get_type],
   verify_message_without_signer_info testBackend testCodec
    { sec_packet :=
        { header_fields := [HeaderField.generation_time 5, HeaderField.its_aid 36],
          payload := { type := PayloadType.Signed, buffer := [1, 2, 3] },
          trailer_fields := [TrailerField.signature EcdsaSignature.default] },
      sec_pdu := [] }
    (by simp [HeaderField.get_type])⟩

/-- Counterexample to C4 as stated: on a request with an empty header-field list
`verify_message` ends in the failed assertion of line 89, an abort and not an
error value returned to the caller. -/
theorem verify_message_aborts_on_empty_header :
    verify_message testBackend testCodec
        { sec_packet :=
            { header_fields := [],
              payload := { type := PayloadType.Signed, buffer := [1, 2, 3] },
              trailer_fields := [TrailerField.signature EcdsaSignature.default] },
          sec_pdu := [] }
      = Except.error Abort.certificate_missing := rfl

/-- C5 (amended): for every request whose first signer-information header field
holds a full certificate from which `get_public_key_from_certificate` returns a
key, and whose trailer-field list is empty, `verify_message` returns no confirm:
the assertion `!trailer_fields.empty()` of line 101 fails and the call aborts. -/
theorem verify_message_without_trailer (be : Backend) (cd : Codec) (request : DecapRequest)
    (pre post : List HeaderField) (cert : Certificate) (pk : ECPPoint)
    (hpre : ∀ f ∈ pre, f.get_type ≠ HeaderFieldType.Signer_Info)
    (hh : request.sec_packet.header_fields
      = pre ++ HeaderField.signer_info (SignerInfo.certificate cert) :: post)
    (hkey : get_public_key_from_certificate be cert = Except.ok pk)
    (ht : request.sec_packet.trailer_fields = []) :
    verify_message be cd request = Except.error Abort.trailer_fields_empty := by
  unfold verify_message
  rw [hh, find_certificate_first pre post cert hpre]
  simp only [hkey, ht]


/-- Witness of C5 (amended): the certificate of the test manager and no trailer
field. -/
theorem verify_message_without_trailer_witness :
    ((∀ f ∈ [HeaderField.generation_time 5, HeaderField.its_aid 36],
        f.get_type ≠ HeaderFieldType.Signer_Info)
      ∧ get_public_key_from_certificate testBackend testManagerValue.m_certificate
        = Except.ok secp256r1_G)
    ∧ verify_message testBackend testCodec
        { sec_packet :=
            { header_fields :=
                [HeaderField.generation_time 5, HeaderField.its_aid 36]
                  ++ HeaderField.signer_info
                      (SignerInfo.certificate testManagerValue.m_certificate) :: [],
              payload := { type := PayloadType.Signed, buffer := [1, 2, 3] },
              trailer_fields := [] },
          sec_pdu := [] }
      = Except.error Abort.trailer_fields_empty :=
  ⟨⟨by simp [HeaderField.get_type], rfl⟩,
   verify_message_without_trailer testBackend testCodec
    { sec_packet :=
        { header_fields :=
            [HeaderField.generation_time 5, HeaderField.its_aid 36]
              ++ HeaderField.signer_info
                  (SignerInfo.certificate testManagerValue.m_certificate) :: [],
          payload := { type := PayloadType.Signed, buffer := [1, 2, 3] },
          trailer_fields := [] },
      sec_pdu := [] }
    [HeaderField.generation_time 5, HeaderField.its_aid 36] []
    testManagerValue.m_certificate secp256r1_G
    (by simp [HeaderField.get_type]) rfl rfl rfl⟩

/-- Counterexample to C5 as stated: the certificate of the test manager yields a
valid key, the trailer list is empty, and `verify_message` ends in the failed
assertion of line 101, an abort and not an error value returned to the caller. -/
theorem verify_message_aborts_on_empty_trailer :
    get_public_key_from_certificate testBackend testManagerValue.m_certificate
      = Except.ok secp256r1_G
    ∧ verify_message testBackend testCodec
        { sec_packet :=
            { header_fields :=
                [HeaderField.generation_time 5, HeaderField.its_aid 36,
                 HeaderField.signer_info (SignerInfo.certificate testManagerValue.m_certificate)],
              payload := { type := PayloadType.Signed, buffer := [1, 2, 3] },
              trailer_fields := [] },
          sec_pdu := [] }
      = Except.error Abort.trailer_fields_empty := ⟨rfl, rfl⟩

/-- C6: for every request with plaintext payload `P`, `sign_message` returns a
secured message with payload type `Signed`, payload bytes `P` and exactly one
trailer field, the signature that `sign_data` produced over the PDU bytes
followed by the signed range of the message.  Assumed of the capabilities:
signatures have 64 bytes and the trailer size depends on lengths only. -/
theorem sign_message_payload_and_trailer (be : Backend) (cd : Codec) (mgr : CertificateManager)
    (time_now : Nat) (request : EncapRequest) (prng : Seed)
    (hl : be.SignatureLength64) (hs : cd.SizeByLength) :
    ∃ (confirm : EncapConfirm) (sig : EcdsaSignature),
      sign_message be cd mgr time_now request prng = Except.ok confirm
      ∧ confirm.sec_packet.payload.type = PayloadType.Signed
      ∧ confirm.sec_packet.payload.buffer = request.plaintext_payload
      ∧ confirm.sec_packet.trailer_fields = [TrailerField.signature sig]
      ∧ sign_data be mgr.m_private_key
          (request.plaintext_pdu ++ cd.convert_for_signing
            { confirm.sec_packet with trailer_fields := [] } TrailerFieldType.Signature
            (cd.get_size (TrailerField.signature sig))) prng = Except.ok sig := by
  obtain ⟨raw, _, _, hsd, hsm⟩ := sign_message_of_laws be cd mgr time_now request prng hl hs
  exact ⟨_, _, hsm, rfl, rfl, rfl, hsd⟩

/-- Witness of C6 on the test backend: payload `[1, 2, 3]`. -/
theorem sign_message_payload_and_trailer_witness :
    ∃ (confirm : EncapConfirm) (sig : EcdsaSignature),
      sign_message testBackend testCodec testManagerValue 77
          { plaintext_payload := [1, 2, 3], plaintext_pdu := [9, 9] } 42 = Except.ok confirm
      ∧ confirm.sec_packet.payload.type = PayloadType.Signed
      ∧ confirm.sec_packet.payload.buffer = [1, 2, 3]
      ∧ confirm.sec_packet.trailer_fields = [TrailerField.signature sig]
      ∧ sign_data testBackend testManagerValue.m_private_key
          ([9, 9] ++ testCodec.convert_for_signing
            { confirm.sec_packet with trailer_fields := [] } TrailerFieldType.Signature
            (testCodec.get_size (TrailerField.signature sig))) 42 = Except.ok sig :=
  sign_message_payload_and_trailer testBackend testCodec testManagerValue 77
    { plaintext_payload := [1, 2, 3], plaintext_pdu := [9, 9] } 42
    testBackend_length testCodec_size

/-- C7: for every request and every 32-bit raw time `t`, `sign_message` returns a
secured message whose header-field list is exactly: the generation time
`t * 1000000` (below `2^64`, so the 64-bit product does not wrap), the
application identifier 36, and a signer info holding the full certificate
`m_certificate` of the manager.  Assumed of the capabilities: signatures have
64 bytes and the trailer size depends on lengths only. -/
theorem sign_message_header_fields (be : Backend) (cd : Codec) (mgr : CertificateManager)
    (t : Nat) (request : EncapRequest) (prng : Seed) (ht : t < 2 ^ 32)
    (hl : be.SignatureLength64) (hs : cd.SizeByLength) :
    ∃ confirm : EncapConfirm,
      sign_message be cd mgr t request prng = Except.ok confirm
      ∧ confirm.sec_packet.header_fields
        = [HeaderField.generation_time (t * 1000000), HeaderField.its_aid 36,
           HeaderField.signer_info (SignerInfo.certificate mgr.m_certificate)]
      ∧ t * 1000000 < 2 ^ 64 := by
  obtain ⟨raw, _, _, _, hsm⟩ := sign_message_of_laws be cd mgr t request prng hl hs
  refine ⟨_, hsm, ?_, by omega⟩
  simp only [get_time_of_raw32 t ht]

/-- Witness of C7 on the test backend: the largest 32-bit raw time. -/
theorem sign_message_header_fields_witness :
    (4294967295 < 2 ^ 32)
    ∧ ∃ confirm : EncapConfirm,
      sign_message testBackend testCodec testManagerValue 4294967295
          { plaintext_payload := [1, 2, 3], plaintext_pdu := [9, 9] } 42 = Except.ok confirm
      ∧ confirm.sec_packet.header_fields
        = [HeaderField.generation_time (4294967295 * 1000000), HeaderField.its_aid 36,
           HeaderField.signer_info (SignerInfo.certificate testManagerValue.m_certificate)]
      ∧ 4294967295 * 1000000 < 2 ^ 64 :=
  ⟨by decide,
   sign_message_header_fields testBackend testCodec testManagerValue 4294967295
    { plaintext_payload := [1, 2, 3], plaintext_pdu := [9, 9] } 42 (by decide)
    testBackend_length testCodec_size⟩

/-- C8: for every private key and data buffer for which the backend emits its
64-byte raw signature, `sign_data` returns a signature whose R is an
x-coordinate-only point of exactly 32 bytes and whose s has exactly 32 bytes; R
is the first 32 bytes and s the remaining bytes of the raw signature. -/
theorem sign_data_components (be : Backend) (private_key : PrivateKey) (data_buffer : ByteBuffer)
    (prng : Seed) (h : (be.sign private_key data_buffer prng).length = 64) :
    ∃ (x s : ByteBuffer),
      sign_data be private_key data_buffer prng
        = Except.ok { R := EccPoint.x_coordinate_only { x := x }, s := s }
      ∧ x.length = 32 ∧ s.length = 32
      ∧ x = (be.sign private_key data_buffer prng).take 32
      ∧ s = (be.sign private_key data_buffer prng).drop 32
      ∧ x ++ s = be.sign private_key data_buffer prng := by
  refine ⟨_, _, sign_data_of_length be private_key data_buffer prng (by omega), ?_, ?_, rfl, rfl,
    List.take_append_drop _ _⟩
  · simp [h]
  · simp [h]

/-- Witness of C8 on the test backend: the seed 1 gives an R that is zero padded
to 32 bytes. -/
theorem sign_data_components_witness :
    (testBackend.sign 3 [7, 7] 1).length = 64
    ∧ ∃ (x s : ByteBuffer),
      sign_data testBackend 3 [7, 7] 1
        = Except.ok { R := EccPoint.x_coordinate_only { x := x }, s := s }
      ∧ x.length = 32 ∧ s.length = 32
      ∧ x = (testBackend.sign 3 [7, 7] 1).take 32
      ∧ s = (testBackend.sign 3 [7, 7] 1).drop 32
      ∧ x ++ s = testBackend.sign 3 [7, 7] 1 :=
  ⟨by decide, sign_data_components testBackend 3 [7, 7] 1 (by decide)⟩

/-- C9: the certificate generated at construction is self-consistent.  The
constructor returns a manager; `get_public_key_from_certificate` on its
certificate returns a key; and the backend verifier, given that key, accepts the
certificate's signature over `convert_for_signing` of the certificate.  Assumed
of the capabilities: the generated keys pass validation, signatures have 64
bytes, the verifier accepts the signer's output under the matching key, valid
points fit in 32 bytes, the signature buffer is R followed by s, and the signed
range of a certificate does not depend on its signature field. -/
theorem certificate_self_consistent (be : Backend) (cd : Codec) (t : Nat)
    (prng prng_sign : Seed)
    (hk : be.validate_private_key (be.generate_private_key prng) = true)
    (hq : be.validate_public_key (be.make_public_key (be.generate_private_key prng)) = true)
    (hl : be.SignatureLength64) (hv : be.VerifiesOwnSignatures) (ha : be.ValidPointsFit)
    (he : cd.SignatureBufferIsRS) (hcs : cd.CertificateRangeIgnoresSignature) :
    ∃ (mgr : CertificateManager) (public_key : ECPPoint),
      CertificateManager.construct be cd t prng prng_sign = Except.ok mgr
      ∧ get_public_key_from_certificate be mgr.m_certificate = Except.ok public_key
      ∧ be.verify public_key
          (cd.extract_signature_buffer (TrailerField.signature mgr.m_certificate.signature)
            ++ cd.convert_for_signing_certificate mgr.m_certificate) = true := by
  obtain ⟨sig, hgen, hsd⟩ := generate_certificate_of_length be cd (be.generate_private_key prng) t
    (be.make_public_key (be.generate_private_key prng)) prng_sign hl
  have hmgr := construct_of_valid be cd t prng prng_sign _ hk hq hgen
  refine ⟨_, _, hmgr, get_public_key_of_constructed be cd ha t prng prng_sign _ hmgr, ?_⟩
  obtain ⟨_, hsig⟩ := sign_data_inv be _ _ prng_sign sig hsd
  simp only [Certificate.signature]
  rw [hcs _ _ _ _ sig EcdsaSignature.default, hsig, he _ _, List.take_append_drop]
  exact hv _ _ _

/-- Witness of C9 on the test backend. -/
theorem certificate_self_consistent_witness :
    (testBackend.validate_private_key (testBackend.generate_private_key 5) = true
      ∧ testBackend.validate_public_key
          (testBackend.make_public_key (testBackend.generate_private_key 5)) = true)
    ∧ ∃ (mgr : CertificateManager) (public_key : ECPPoint),
      CertificateManager.construct testBackend testCodec 1000 5 6 = Except.ok mgr
      ∧ get_public_key_from_certificate testBackend mgr.m_certificate = Except.ok public_key
      ∧ testBackend.verify public_key
          (testCodec.extract_signature_buffer
              (TrailerField.signature mgr.m_certificate.signature)
            ++ testCodec.convert_for_signing_certificate mgr.m_certificate) = true :=
  ⟨⟨by decide, by decide⟩,
   certificate_self_consistent testBackend testCodec 1000 5 6 (by decide) (by decide)
    testBackend_length testBackend_verifies testBackend_valid_fit testCodec_signature_buffer
    testCodec_certificate_range⟩

/-- C10: key recovery undoes key embedding.  For every point `(x, y)` with
`x, y < 2^256`, `generate_certificate` returns a certificate whose first subject
attribute is the verification key holding the 32-byte encodings; printing these
as hex text and hex-decoding gives 32 bytes each (the length assertions hold);
decoding returns `x` and `y`; and `get_public_key_from_certificate` returns
exactly `(x, y)` for a point that passes Crypto++ validation, which line 29
asserts of the key the constructor embeds and line 234 asserts again.  Assumed
of the backend: signatures have 64 bytes. -/
theorem public_key_round_trip (be : Backend) (cd : Codec) (k : PrivateKey) (t : Nat)
    (prng : Seed) (x y : Nat) (hx : x < 2 ^ 256) (hy : y < 2 ^ 256)
    (hl : be.SignatureLength64) :
    ∃ cert : Certificate,
      generate_certificate be cd k t { identity := false, x := x, y := y } prng = Except.ok cert
      ∧ find_public_key_coordinates cert.subject_attributes
        = Except.ok (some { x := Integer_Encode x 32, y := Integer_Encode y 32 })
      ∧ (HexDecoder (hex_string (Integer_Encode x 32))).length = 32
      ∧ (HexDecoder (hex_string (Integer_Encode y 32))).length = 32
      ∧ Integer_Decode (HexDecoder (hex_string (Integer_Encode x 32))) = x
      ∧ Integer_Decode (HexDecoder (hex_string (Integer_Encode y 32))) = y
      ∧ (be.validate_public_key { identity := false, x := x, y := y } = true →
          get_public_key_from_certificate be cert
            = Except.ok { identity := false, x := x, y := y }) := by
  have h256 : (256 : Nat) ^ 32 = 2 ^ 256 := by norm_num
  obtain ⟨sig, hgen, _⟩ := generate_certificate_of_length be cd k t
    { identity := false, x := x, y := y } prng hl
  refine ⟨_, hgen, rfl, ?_, ?_, ?_, ?_, fun hvalid => ?_⟩
  rotate_right
  · rw [get_public_key_of_encoded be x y hx hy, if_pos hvalid]
  · rw [HexDecoder_hex_string, Integer_Encode_length]
  · rw [HexDecoder_hex_string, Integer_Encode_length]
  · rw [HexDecoder_hex_string, Integer_Decode_Encode, h256, Nat.mod_eq_of_lt hx]
  · rw [HexDecoder_hex_string, Integer_Decode_Encode, h256, Nat.mod_eq_of_lt hy]


/-- Witness of C10: the base point of secp256r1 is embedded and recovered. -/
theorem public_key_round_trip_witness :
    (secp256r1_G.x < 2 ^ 256 ∧ secp256r1_G.y < 2 ^ 256)
    ∧ ∃ cert : Certificate,
      generate_certificate testBackend testCodec 3 1000
          { identity := false, x := secp256r1_G.x, y := secp256r1_G.y } 6 = Except.ok cert
      ∧ get_public_key_from_certificate testBackend cert
        = Except.ok { identity := false, x := secp256r1_G.x, y := secp256r1_G.y } :=
  ⟨⟨by decide, by decide⟩,
   match public_key_round_trip testBackend testCodec 3 1000 6 secp256r1_G.x secp256r1_G.y
      (by decide) (by decide) testBackend_length with
   | ⟨cert, hgen, _, _, _, _, _, hkey⟩ => ⟨cert, hgen, hkey (by decide)⟩⟩

end Vanetza
